import Mathlib

/-!
Verification of the data-shifter utility (src/main.rs): a shallow embedding
of its frame codec (magic, shift byte, name length, name, transformed
payload) and of the per-file shift/restore pipelines, together with proofs
of the specified properties. Bytes are modelled as natural numbers below
256; files are byte lists; the destination directory is modelled as an
association list from paths (byte lists) to file contents.
-/

namespace DataShifter

/-- The 7-byte magic marker, the bytes of the literal "SHIFTED"
(MAGIC_NUM in main.rs). -/
def MAGIC_NUM : List Nat := [83, 72, 73, 70, 84, 69, 68]

/-- The bytes of the ".shift" suffix appended to the output filename by
the shift driver. -/
def dotShift : List Nat := [46, 115, 104, 105, 102, 116]

/-- 8-bit wraparound addition, u8::wrapping_add in main.rs line 140. -/
def wrappingAdd (b s : Nat) : Nat := (b + s) % 256

/-- 8-bit wraparound subtraction, u8::wrapping_sub in main.rs line 227.
For byte values b, s below 256 this is (b - s) modulo 256. -/
def wrappingSub (b s : Nat) : Nat := (b + 256 - s % 256) % 256

/-- The in-place encode transform applied to one chunk by the shift
driver loop (main.rs lines 138-140): add the shift to every byte with
wraparound. -/
def shiftTransformChunk (s : Nat) (buffer : List Nat) : List Nat :=
  buffer.map (fun b => wrappingAdd b s)

/-- The in-place decode transform applied to one chunk by the restore
driver loop (main.rs lines 225-227): subtract the shift from every byte
with wraparound. -/
def restoreTransformChunk (s : Nat) (buffer : List Nat) : List Nat :=
  buffer.map (fun b => wrappingSub b s)

/-- The shift driver's streaming loop (main.rs lines 133-142): the reader
delivers the payload as successive chunks; each chunk is transformed in
encode direction and written out. -/
def shiftStreamLoop (s : Nat) : List (List Nat) → List Nat
  | [] => []
  | c :: rest => shiftTransformChunk s c ++ shiftStreamLoop s rest

/-- The restore driver's streaming loop (main.rs lines 220-229): each
chunk is transformed in decode direction and written out. -/
def restoreStreamLoop (s : Nat) : List (List Nat) → List Nat
  | [] => []
  | c :: rest => restoreTransformChunk s c ++ restoreStreamLoop s rest

/-- Modelled from the spec: the rand crate's rng.gen_range(1..=u8::MAX)
call (main.rs line 121) draws a uniformly random byte in the inclusive
range [1,255]; it is modelled as a function of the underlying generator
draw r. -/
def genRange1to255 (r : Nat) : Nat := 1 + r % 255

/-- Whether a byte is a UTF-8 continuation byte (0x80..0xBF). -/
def isCont (b : Nat) : Bool := 128 ≤ b && b ≤ 191

/-- Whether byte c is admissible as the second byte of a three-byte UTF-8
sequence with lead byte b (lead 0xE0 requires 0xA0..0xBF, lead 0xED
requires 0x80..0x9F, other leads require a plain continuation byte). -/
def utf8Second3 (b c : Nat) : Bool :=
  if b = 224 then 160 ≤ c && c ≤ 191
  else if b = 237 then 128 ≤ c && c ≤ 159
  else isCont c

/-- Whether byte c is admissible as the second byte of a four-byte UTF-8
sequence with lead byte b (lead 0xF0 requires 0x90..0xBF, lead 0xF4
requires 0x80..0x8F, other leads require a plain continuation byte). -/
def utf8Second4 (b c : Nat) : Bool :=
  if b = 240 then 144 ≤ c && c ≤ 191
  else if b = 244 then 128 ≤ c && c ≤ 143
  else isCont c

/-- The UTF-8 bytes of the replacement character U+FFFD. -/
def repChar : List Nat := [239, 191, 189]

/-- Modelled from the spec: lenient UTF-8 decoding (String::from_utf8_lossy
and OsStr::to_string_lossy in main.rs lines 84, 127, 182), expressed at the
byte level: well-formed UTF-8 sequences pass through unchanged, and each
maximal invalid subpart is replaced by the replacement character U+FFFD;
decoding never fails. -/
def utf8Lossy : List Nat → List Nat
  | [] => []
  | b :: rest =>
    if b ≤ 127 then b :: utf8Lossy rest
    else if 194 ≤ b && b ≤ 223 then
      match rest with
      | [] => repChar
      | c :: r =>
        if isCont c then b :: c :: utf8Lossy r
        else repChar ++ utf8Lossy (c :: r)
    else if (224 ≤ b && b ≤ 239) then
      match rest with
      | [] => repChar
      | c :: r =>
        if utf8Second3 b c then
          match r with
          | [] => repChar
          | d :: r' =>
            if isCont d then b :: c :: d :: utf8Lossy r'
            else repChar ++ utf8Lossy (d :: r')
        else repChar ++ utf8Lossy (c :: r)
    else if (240 ≤ b && b ≤ 244) then
      match rest with
      | [] => repChar
      | c :: r =>
        if utf8Second4 b c then
          match r with
          | [] => repChar
          | d :: r' =>
            if isCont d then
              match r' with
              | [] => repChar
              | e :: r'' =>
                if isCont e then b :: c :: d :: e :: utf8Lossy r''
                else repChar ++ utf8Lossy (e :: r'')
            else repChar ++ utf8Lossy (d :: r')
        else repChar ++ utf8Lossy (c :: r)
    else repChar ++ utf8Lossy rest

/-- The complete byte content of a file written by the shift driver
(main.rs lines 125-142): magic, shift byte, name length byte, name bytes,
then the payload transformed in encode direction. -/
def shiftFileBytes (name : List Nat) (s : Nat) (content : List Nat) : List Nat :=
  MAGIC_NUM ++ [s] ++ [name.length] ++ name ++ content.map (fun b => wrappingAdd b s)

/-- The restore driver's header parse and payload decode (main.rs lines
156-182, 220-229) as a pure function on the input file's bytes: read 8
bytes (fail on short read), check the magic, take byte 7 as the shift,
read the name length byte (fail on short read or zero), read that many
name bytes (fail on short read), and decode the rest of the file as the
payload. Returns the shift, the raw name bytes and the decoded payload,
or none when the file is rejected as invalid. -/
def restoreParse (bs : List Nat) : Option (Nat × List Nat × List Nat) :=
  if bs.length < 8 then none
  else if bs.take 7 ≠ MAGIC_NUM then none
  else
    let random := bs.getD 7 0
    if bs.length < 9 then none
    else
      let nameLen := bs.getD 8 0
      if nameLen = 0 then none
      else if bs.length < 9 + nameLen then none
      else some (random, (bs.drop 9).take nameLen,
        (bs.drop (9 + nameLen)).map (fun b => wrappingSub b random))

/-- The per-file outcome of one iteration of a driver loop: the file was
processed and written (ok), rejected as invalid input (invalid), skipped
because the destination could not be created under the non-force policy
(collision), or aborted by a panicking unwrap (fatal). -/
inductive Outcome where
  | ok
  | invalid
  | collision
  | fatal
deriving DecidableEq, Repr

/-- The destination directory's contents, modelled as an association list
from paths (byte lists) to file contents; a write prepends an entry, so a
lookup sees the newest content for a path. -/
abbrev FS : Type := List (List Nat × List Nat)

/-- Modelled from the spec: destination path construction dir.join(name)
(main.rs lines 85, 183); std PathBuf::join appends name as a path
component after a separator, except that an absolute name replaces the
whole path. -/
def dirJoin (dir name : List Nat) : List Nat :=
  if name.head? = some 47 then name else dir ++ [47] ++ name

/-- The destination path used by the shift driver for an input with the
given base name: the directory joined with the lossily decoded name plus
the ".shift" suffix (main.rs line 85). -/
def shiftDest (dir inputName : List Nat) : List Nat :=
  dirJoin dir (utf8Lossy inputName ++ dotShift)

/-- One iteration of the shift driver loop (main.rs lines 75-143) over the
modelled destination directory: open the destination under the overwrite
policy (create_new without force, create plus truncate with force), then
write the header and the encoded payload. A lossily decoded base name
longer than 255 bytes makes the u8::try_from(...).unwrap() on line 129
panic after the destination was already created, so the created file is
left behind empty and the outcome is fatal. The input's base name and
content and the drawn shift value are passed in directly. -/
def shiftOne (fs : FS) (force : Bool) (dir inputName content : List Nat) (s : Nat) :
    FS × Outcome :=
  let nameB := utf8Lossy inputName
  let outputPath := shiftDest dir inputName
  let write : FS → FS × Outcome := fun fs0 =>
    if nameB.length ≤ 255 then
      ((outputPath, shiftFileBytes nameB s content) :: fs0, Outcome.ok)
    else
      ((outputPath, []) :: fs0, Outcome.fatal)
  if force then write fs
  else
    match List.lookup outputPath fs with
    | some _ => (fs, Outcome.collision)
    | none => write fs

/-- One iteration of the restore driver loop (main.rs lines 148-230) over
the modelled destination directory: parse and validate the header,
lossily decode the name, join it to the directory, open the destination
under the overwrite policy, and write the decoded payload. -/
def restoreOne (fs : FS) (force : Bool) (dir input : List Nat) : FS × Outcome :=
  match restoreParse input with
  | none => (fs, Outcome.invalid)
  | some (_, name, payload) =>
    let outputPath := dirJoin dir (utf8Lossy name)
    if force then
      ((outputPath, payload) :: fs, Outcome.ok)
    else
      match List.lookup outputPath fs with
      | some _ => (fs, Outcome.collision)
      | none => ((outputPath, payload) :: fs, Outcome.ok)

lemma wrappingSub_wrappingAdd (b s : Nat) (hb : b < 256) :
    wrappingSub (wrappingAdd b s) s = b := by
  unfold wrappingSub wrappingAdd
  omega

lemma restoreParse_wellformed (N P : List Nat) (s : Nat) (h : N.length ≠ 0) :
    restoreParse (MAGIC_NUM ++ [s] ++ [N.length] ++ N ++ P)
      = some (s, N, P.map (fun b => wrappingSub b s)) := by
  have hlist : MAGIC_NUM ++ [s] ++ [N.length] ++ N ++ P
      = 83 :: 72 :: 73 :: 70 :: 84 :: 69 :: 68 :: s :: N.length :: (N ++ P) := by
    simp [MAGIC_NUM]
  rw [hlist]
  have h7 : (83 :: 72 :: 73 :: 70 :: 84 :: 69 :: 68 :: s :: N.length :: (N ++ P)).take 7
      = MAGIC_NUM := rfl
  have hg7 : (83 :: 72 :: 73 :: 70 :: 84 :: 69 :: 68 :: s :: N.length :: (N ++ P)).getD 7 0
      = s := rfl
  have hg8 : (83 :: 72 :: 73 :: 70 :: 84 :: 69 :: 68 :: s :: N.length :: (N ++ P)).getD 8 0
      = N.length := rfl
  have hd9 : (83 :: 72 :: 73 :: 70 :: 84 :: 69 :: 68 :: s :: N.length :: (N ++ P)).drop 9
      = N ++ P := rfl
  have hlen : (83 :: 72 :: 73 :: 70 :: 84 :: 69 :: 68 :: s :: N.length :: (N ++ P)).length
      = 9 + (N.length + P.length) := by simp; omega
  have hdropP : (83 :: 72 :: 73 :: 70 :: 84 :: 69 :: 68 :: s :: N.length :: (N ++ P)).drop
      (9 + N.length) = P := by
    have hre : 83 :: 72 :: 73 :: 70 :: 84 :: 69 :: 68 :: s :: N.length :: (N ++ P)
        = ([(83 : Nat), 72, 73, 70, 84, 69, 68, s, N.length] ++ N) ++ P := by simp
    rw [hre, List.drop_left' (by simp; omega)]
  unfold restoreParse
  simp only [h7, hg7, hg8, hd9, hlen, hdropP, List.take_left, ne_eq, not_true_eq_false,
    if_false]
  split_ifs with h1 h2 h3 <;> first | rfl | omega

lemma map_dec_enc (B : List Nat) (s : Nat) (hB : ∀ b ∈ B, b < 256) :
    (B.map (fun b => wrappingAdd b s)).map (fun b => wrappingSub b s) = B := by
  rw [List.map_map]
  induction B with
  | nil => rfl
  | cons a l ih =>
    simp only [List.map_cons, Function.comp]
    rw [wrappingSub_wrappingAdd a s (hB a (by simp))]
    rw [ih (fun b hb => hB b (by simp [hb]))]

/-- C1: restoring a file produced by the shift operation (magic, shift s,
name length, name N, transformed payload) on a fresh destination directory
yields exactly one output file, at path dir/N, whose content is the
original payload B, for every valid-UTF-8 name of byte length 1..255,
every shift value in [1,255] and every payload of bytes. -/
theorem shift_restore_roundtrip (dir N B : List Nat) (s : Nat)
    (hvalid : utf8Lossy N = N) (hlen1 : 1 ≤ N.length) (hlen2 : N.length ≤ 255)
    (hs1 : 1 ≤ s) (hs2 : s ≤ 255) (hB : ∀ b ∈ B, b < 256) :
    restoreOne [] false dir (shiftFileBytes N s B) = ([(dirJoin dir N, B)], Outcome.ok) := by
  have hparse : restoreParse (shiftFileBytes N s B)
      = some (s, N, B) := by
    rw [shiftFileBytes, restoreParse_wellformed N _ s (by omega)]
    rw [map_dec_enc B s hB]
  rw [restoreOne, hparse]
  simp [hvalid]

/-- C1 witness: the round-trip at name a.txt, shift 5, payload
[0x00, 0x01, 0xFF]. -/
theorem shift_restore_roundtrip_witness :
    restoreOne [] false [100] (shiftFileBytes [97, 46, 116, 120, 116] 5 [0, 1, 255])
      = ([([100, 47, 97, 46, 116, 120, 116], [0, 1, 255])], Outcome.ok) :=
  shift_restore_roundtrip [100] [97, 46, 116, 120, 116] [0, 1, 255] 5
    (by decide) (by decide) (by decide) (by decide) (by decide) (by decide)


/-- C2: the shift operation writes the header bytes exactly as magic, then
the shift byte, then the name length byte, then the name, and maps every
payload byte b to (b + s) mod 256; concretely, for input a.txt with
content [0x00, 0x01, 0xFF] and shift 5, the output file is the magic
"SHIFTED", then 0x05, 0x05, the name a.txt, then payload
[0x05, 0x06, 0x04]. -/
theorem shift_encode_header_and_payload :
    (∀ (N B : List Nat) (s : Nat),
       (shiftFileBytes N s B).take (9 + N.length) = MAGIC_NUM ++ [s] ++ [N.length] ++ N
       ∧ (shiftFileBytes N s B).drop (9 + N.length) = B.map (fun b => (b + s) % 256))
    ∧ shiftFileBytes [97, 46, 116, 120, 116] 5 [0, 1, 255]
        = MAGIC_NUM ++ [5] ++ [5] ++ [97, 46, 116, 120, 116] ++ [5, 6, 4] := by
  constructor
  · intro N B s
    have hre : shiftFileBytes N s B
        = (MAGIC_NUM ++ [s] ++ [N.length] ++ N) ++ B.map (fun b => wrappingAdd b s) := by
      simp [shiftFileBytes]
    have hlen : (MAGIC_NUM ++ [s] ++ [N.length] ++ N).length = 9 + N.length := by
      simp [MAGIC_NUM]; omega
    constructor
    · rw [hre, List.take_left' hlen]
    · rw [hre, List.drop_left' hlen]
      rfl
  · decide

/-- C3: decoding an encoded buffer restores it: applying the encode
transform (wrapping add of s) and then the decode transform (wrapping
subtract of s) to any byte buffer returns the buffer unchanged, for every
shift value in [1,255]. -/
theorem transform_chunk_roundtrip (B : List Nat) (s : Nat)
    (hs1 : 1 ≤ s) (hs2 : s ≤ 255) (hB : ∀ b ∈ B, b < 256) :
    restoreTransformChunk s (shiftTransformChunk s B) = B := by
  rw [restoreTransformChunk, shiftTransformChunk]
  exact map_dec_enc B s hB

/-- C3 witness: the transform round-trip at buffer [0x00, 0x01, 0xFF] and
shift 5. -/
theorem transform_chunk_roundtrip_witness :
    restoreTransformChunk 5 (shiftTransformChunk 5 [0, 1, 255]) = [0, 1, 255] :=
  transform_chunk_roundtrip [0, 1, 255] 5 (by decide) (by decide) (by decide)

/-- C4: the shift value drawn by the random generator is always in the
inclusive range [1,255] and is never 0. -/
theorem shift_draw_in_range :
    ∀ r : Nat, 1 ≤ genRange1to255 r ∧ genRange1to255 r ≤ 255 ∧ genRange1to255 r ≠ 0 := by
  intro r
  unfold genRange1to255
  have : r % 255 < 255 := Nat.mod_lt r (by omega)
  omega


lemma map_wrappingSub_zero (P : List Nat) (hP : ∀ b ∈ P, b < 256) :
    P.map (fun b => wrappingSub b 0) = P := by
  induction P with
  | nil => rfl
  | cons a l ih =>
    simp only [List.map_cons]
    have ha : wrappingSub a 0 = a := by
      unfold wrappingSub
      have := hP a (by simp)
      omega
    rw [ha, ih (fun b hb => hP b (by simp [hb]))]

/-- C5 counterexample: a file whose header carries shift byte 0 with a
valid magic and name length 1 (name "a", payload [1, 2, 3]) is not
rejected by restore: it is accepted and an output file is produced. -/
theorem restore_zero_shift_counterexample :
    restoreOne [] false [100] (MAGIC_NUM ++ [0, 1, 97] ++ [1, 2, 3])
      = ([([100, 47, 97], [1, 2, 3])], Outcome.ok)
    ∧ restoreOne [] false [100] (MAGIC_NUM ++ [0, 1, 97] ++ [1, 2, 3])
      ≠ ([], Outcome.invalid) := by decide

/-- C5 amended: restore never validates the shift byte: an input whose
header carries shift byte 0 but has a valid magic and a nonzero name
length is accepted (not marked invalid), and its payload is decoded with
shift 0, i.e. copied unchanged. -/
theorem restore_accepts_zero_shift (N P : List Nat)
    (h1 : 1 ≤ N.length) (h2 : N.length ≤ 255) (hP : ∀ b ∈ P, b < 256) :
    restoreParse (MAGIC_NUM ++ [0] ++ [N.length] ++ N ++ P) = some (0, N, P) := by
  rw [restoreParse_wellformed N P 0 (by omega)]
  rw [map_wrappingSub_zero P hP]

/-- C5 amended witness: the zero-shift header with name "a" and payload
[1, 2, 3] parses successfully with its payload unchanged. -/
theorem restore_accepts_zero_shift_witness :
    restoreParse (MAGIC_NUM ++ [0] ++ [1] ++ [97] ++ [1, 2, 3]) = some (0, [97], [1, 2, 3]) :=
  restore_accepts_zero_shift [97] [1, 2, 3] (by decide) (by decide) (by decide)

/-- C6: an input whose first 7 bytes differ from the magic "SHIFTED", or
whose name length byte is 0 (or missing), is reported invalid by restore
and the destination directory is left exactly as it was: no output file
is opened, created or truncated. -/
theorem restore_rejects_invalid_header (fs : FS) (force : Bool) (dir input : List Nat)
    (h : input.take 7 ≠ MAGIC_NUM ∨ input.getD 8 0 = 0) :
    restoreOne fs force dir input = (fs, Outcome.invalid) := by
  have hnone : restoreParse input = none := by
    unfold restoreParse
    rcases h with h | h
    · split_ifs <;> simp_all
    · split_ifs <;> simp_all
  rw [restoreOne, hnone]

/-- C6 witness: the three-byte input [1, 2, 3] (bad magic) is rejected on
an empty destination directory, which stays empty. -/
theorem restore_rejects_invalid_header_witness :
    restoreOne [] false [100] [1, 2, 3] = ([], Outcome.invalid) :=
  restore_rejects_invalid_header [] false [100] [1, 2, 3] (by decide)


/-- C7: with an existing file at the destination path, the non-force mode
skips the input for both drivers and leaves the destination directory,
hence the existing file's content, unchanged; the force mode succeeds for
both drivers and the destination path now holds the newly written
content. -/
theorem overwrite_policy
    (fs : FS) (dir inName content input : List Nat) (s s' : Nat)
    (name payload ex ex' : List Nat)
    (hname : (utf8Lossy inName).length ≤ 255)
    (hsh : List.lookup (shiftDest dir inName) fs = some ex)
    (hparse : restoreParse input = some (s', name, payload))
    (hre : List.lookup (dirJoin dir (utf8Lossy name)) fs = some ex') :
    shiftOne fs false dir inName content s = (fs, Outcome.collision)
    ∧ restoreOne fs false dir input = (fs, Outcome.collision)
    ∧ shiftOne fs true dir inName content s
        = ((shiftDest dir inName, shiftFileBytes (utf8Lossy inName) s content) :: fs,
           Outcome.ok)
    ∧ List.lookup (shiftDest dir inName) (shiftOne fs true dir inName content s).1
        = some (shiftFileBytes (utf8Lossy inName) s content)
    ∧ restoreOne fs true dir input
        = ((dirJoin dir (utf8Lossy name), payload) :: fs, Outcome.ok)
    ∧ List.lookup (dirJoin dir (utf8Lossy name)) (restoreOne fs true dir input).1
        = some payload := by
  have hshift : shiftOne fs true dir inName content s
      = ((shiftDest dir inName, shiftFileBytes (utf8Lossy inName) s content) :: fs,
         Outcome.ok) := by
    rw [shiftOne]
    simp [hname]
  have hrestore : restoreOne fs true dir input
      = ((dirJoin dir (utf8Lossy name), payload) :: fs, Outcome.ok) := by
    rw [restoreOne, hparse]
    simp
  refine ⟨?_, ?_, hshift, ?_, hrestore, ?_⟩
  · rw [shiftOne]
    simp [hsh]
  · rw [restoreOne, hparse]
    simp [hre]
  · rw [hshift]
    simp
  · rw [hrestore]
    simp

/-- C7 witness: destination directory d holding files a.shift (content
[9]) and b (content [8]): shifting input a and restoring a file with
embedded name b both collide without force and leave the directory
unchanged, and both overwrite under force. -/
theorem overwrite_policy_witness :
    shiftOne [([100, 47, 97, 46, 115, 104, 105, 102, 116], [9]), ([100, 47, 98], [8])]
        false [100] [97] [1, 2] 7
      = ([([100, 47, 97, 46, 115, 104, 105, 102, 116], [9]), ([100, 47, 98], [8])],
         Outcome.collision)
    ∧ restoreOne [([100, 47, 97, 46, 115, 104, 105, 102, 116], [9]), ([100, 47, 98], [8])]
        false [100] (MAGIC_NUM ++ [1, 1, 98] ++ [5])
      = ([([100, 47, 97, 46, 115, 104, 105, 102, 116], [9]), ([100, 47, 98], [8])],
         Outcome.collision)
    ∧ shiftOne [([100, 47, 97, 46, 115, 104, 105, 102, 116], [9]), ([100, 47, 98], [8])]
        true [100] [97] [1, 2] 7
      = (([100, 47, 97, 46, 115, 104, 105, 102, 116], shiftFileBytes [97] 7 [1, 2])
           :: [([100, 47, 97, 46, 115, 104, 105, 102, 116], [9]), ([100, 47, 98], [8])],
         Outcome.ok)
    ∧ List.lookup [100, 47, 97, 46, 115, 104, 105, 102, 116]
        (shiftOne [([100, 47, 97, 46, 115, 104, 105, 102, 116], [9]), ([100, 47, 98], [8])]
          true [100] [97] [1, 2] 7).1
      = some (shiftFileBytes [97] 7 [1, 2])
    ∧ restoreOne [([100, 47, 97, 46, 115, 104, 105, 102, 116], [9]), ([100, 47, 98], [8])]
        true [100] (MAGIC_NUM ++ [1, 1, 98] ++ [5])
      = (([100, 47, 98], [4])
           :: [([100, 47, 97, 46, 115, 104, 105, 102, 116], [9]), ([100, 47, 98], [8])],
         Outcome.ok)
    ∧ List.lookup [100, 47, 98]
        (restoreOne [([100, 47, 97, 46, 115, 104, 105, 102, 116], [9]), ([100, 47, 98], [8])]
          true [100] (MAGIC_NUM ++ [1, 1, 98] ++ [5])).1
      = some [4] :=
  overwrite_policy
    [([100, 47, 97, 46, 115, 104, 105, 102, 116], [9]), ([100, 47, 98], [8])]
    [100] [97] [1, 2] (MAGIC_NUM ++ [1, 1, 98] ++ [5]) 7 1 [98] [4] [9] [8]
    (by decide) (by decide) (by decide) (by decide)


/-- C8: when the lossily decoded base name is longer than 255 bytes, the
shift operation hits the panicking unwrap on the name length conversion:
the outcome for that file is fatal and only the already-created empty
destination is left behind, never a header with a truncated name; and
whenever the shift operation does produce its output, the header's name
length byte at offset 8 equals the full byte length of the name. -/
theorem shift_long_name_fatal
    (fs : FS) (force : Bool) (dir inName content : List Nat) (s : Nat)
    (hfree : List.lookup (shiftDest dir inName) fs = none) :
    (255 < (utf8Lossy inName).length →
       shiftOne fs force dir inName content s
         = ((shiftDest dir inName, []) :: fs, Outcome.fatal))
    ∧ ((utf8Lossy inName).length ≤ 255 →
       shiftOne fs force dir inName content s
         = ((shiftDest dir inName, shiftFileBytes (utf8Lossy inName) s content) :: fs,
            Outcome.ok)
       ∧ (shiftFileBytes (utf8Lossy inName) s content).getD 8 0
           = (utf8Lossy inName).length) := by
  constructor
  · intro hlong
    rw [shiftOne]
    cases force with
    | true => simp [hfree]; omega
    | false => simp [hfree]; omega
  · intro hshort
    constructor
    · rw [shiftOne]
      cases force with
      | true => simp [hshort]
      | false => simp [hfree, hshort]
    · have : shiftFileBytes (utf8Lossy inName) s content
          = 83 :: 72 :: 73 :: 70 :: 84 :: 69 :: 68 :: s :: (utf8Lossy inName).length
            :: (utf8Lossy inName ++ content.map (fun b => wrappingAdd b s)) := by
        simp [shiftFileBytes, MAGIC_NUM]
      rw [this]
      rfl

set_option maxRecDepth 4000 in
/-- C8 witness: a base name of 256 bytes (the letter a repeated) makes the
shift operation end fatally, leaving only an empty destination file; a
one-byte name succeeds with name length byte 1. -/
theorem shift_long_name_fatal_witness :
    (shiftOne [] false [100] (List.replicate 256 97) [1] 7
       = ((shiftDest [100] (List.replicate 256 97), []) :: [], Outcome.fatal))
    ∧ ((shiftOne [] false [100] [97] [1] 7
       = ((shiftDest [100] [97], shiftFileBytes (utf8Lossy [97]) 7 [1]) :: [], Outcome.ok))
       ∧ (shiftFileBytes (utf8Lossy [97]) 7 [1]).getD 8 0 = (utf8Lossy [97]).length) :=
  ⟨(shift_long_name_fatal [] false [100] (List.replicate 256 97) [1] 7 rfl).1
     (by decide),
   (shift_long_name_fatal [] false [100] [97] [1] 7 rfl).2 (by decide)⟩

/-- C9: for every input accepted by restore's header validation, the
destination path is the directory joined with the lossily decoded name
used verbatim as a path component: in force mode the file is always
written there, and in non-force mode it is written there whenever the
path is free; no name, in particular none containing a path separator or
a parent-directory component, is rejected or altered. -/
theorem restore_dest_uses_name_verbatim
    (fs : FS) (dir input : List Nat) (s : Nat) (name payload : List Nat)
    (hparse : restoreParse input = some (s, name, payload)) :
    restoreOne fs true dir input
      = ((dirJoin dir (utf8Lossy name), payload) :: fs, Outcome.ok)
    ∧ (List.lookup (dirJoin dir (utf8Lossy name)) fs = none →
       restoreOne fs false dir input
         = ((dirJoin dir (utf8Lossy name), payload) :: fs, Outcome.ok)) := by
  constructor
  · rw [restoreOne, hparse]
    simp
  · intro hfree
    rw [restoreOne, hparse]
    simp [hfree]

/-- C9 witness: a frame whose embedded name is "../x" is accepted by
restore and written at d/../x — the traversal sequence and separator pass
into the destination path unsanitized. -/
theorem restore_dest_uses_name_verbatim_witness :
    restoreOne [] true [100] (MAGIC_NUM ++ [1, 4, 46, 46, 47, 120, 10])
      = (([100, 47, 46, 46, 47, 120], [9]) :: [], Outcome.ok)
    ∧ restoreOne [] false [100] (MAGIC_NUM ++ [1, 4, 46, 46, 47, 120, 10])
      = (([100, 47, 46, 46, 47, 120], [9]) :: [], Outcome.ok) :=
  ⟨(restore_dest_uses_name_verbatim [] [100] (MAGIC_NUM ++ [1, 4, 46, 46, 47, 120, 10])
      1 [46, 46, 47, 120] [9] (by decide)).1,
   (restore_dest_uses_name_verbatim [] [100] (MAGIC_NUM ++ [1, 4, 46, 46, 47, 120, 10])
      1 [46, 46, 47, 120] [9] (by decide)).2 rfl⟩

/-- C10: streaming the payload through the transform chunk by chunk gives
the same bytes as transforming the whole payload at once, in both the
encode and the decode direction, for every splitting of the payload into
nonempty chunks of at most the 4096-byte buffer size: the output is
independent of the chunk boundaries. -/
theorem stream_transform_chunk_invariant (s : Nat) (chunks : List (List Nat))
    (h : ∀ c ∈ chunks, c ≠ [] ∧ c.length ≤ 4096) :
    shiftStreamLoop s chunks = shiftTransformChunk s chunks.flatten
    ∧ restoreStreamLoop s chunks = restoreTransformChunk s chunks.flatten := by
  induction chunks with
  | nil => exact ⟨rfl, rfl⟩
  | cons c rest ih =>
    have ih' := ih (fun c hc => h c (by simp [hc]))
    constructor
    · rw [shiftStreamLoop, ih'.1]
      simp [shiftTransformChunk, List.flatten]
    · rw [restoreStreamLoop, ih'.2]
      simp [restoreTransformChunk, List.flatten]

/-- C10 witness: the payload [1, 2, 3] split as [1] and [2, 3] streams to
the same bytes as the whole-payload transform, in both directions. -/
theorem stream_transform_chunk_invariant_witness :
    shiftStreamLoop 5 [[1], [2, 3]] = shiftTransformChunk 5 [[1], [2, 3]].flatten
    ∧ restoreStreamLoop 5 [[1], [2, 3]] = restoreTransformChunk 5 [[1], [2, 3]].flatten :=
  stream_transform_chunk_invariant 5 [[1], [2, 3]] (by decide)

end DataShifter
